import Mathlib

/-!
Shallow embedding of the conversation-orchestration core of a water-utility
customer-service backend (agent graph, verification gate, tool layer, TTL
reaper), together with theorems settling the frozen claims about it.

Conventions of the embedding:
- Python values that may be `None` become `Option`; Python truthiness of an
  optional string (`None` and `""` are falsy) and of an optional boolean are
  made explicit via `pyTruthyStr` / `pyTruthyBool`.
- Functions that can raise a Python exception return `Except PyExc _`.
- External collaborators (the SOAP legacy lookup, the local customer
  directory, the language model, the address validator, the outage table)
  are passed in as oracle arguments: the embedded control flow is the code
  of the repository, the oracles stand for its environment.
- Wall-clock timestamps are modelled as integers (minutes) or as the
  `PyDateTime` record where the actual calendar fields matter.
-/

/-- Python truthiness of an optional string: `None` and the empty string are
falsy, every other string is truthy. -/
def pyTruthyStr : Option String → Bool
  | none => false
  | some s => s ≠ ""

/-- Python truthiness of an optional boolean: `None` is falsy. -/
def pyTruthyBool : Option Bool → Bool
  | none => false
  | some b => b

/-- Rendering of an optional string inside a Python f-string: `None` prints
as the four characters `None`. -/
def pyShowOptStr : Option String → String
  | none => "None"
  | some s => s

/-- Python exceptions that the embedded code can raise. -/
inductive PyExc where
  | typeError
  | attributeError
  | valueError
deriving DecidableEq, Repr

/-! ## Verification gate: `DatabaseManager.verify_phone_number` and
`DatabaseManager.get_active_phone_verification` (app/utilities/database.py).

The `phone_verifications` table is a list of rows; the `accounts` table is a
list of `(phone, account_id)` pairs; `CURRENT_TIMESTAMP` is the `clock`
argument. -/

/-- One row of the `phone_verifications` table. -/
structure PhoneVerification where
  phone_number : String
  account_id : String
  session_id : Option String
  verified_at : Nat
  verification_method : String
  is_active : Bool
deriving DecidableEq, Repr

/-- The `accounts`-table lookup done by
`session.query(Account).filter(Account.phone == phone_number).first()`. -/
def lookupAccount (accounts : List (String × String)) (phone : String) :
    Option String :=
  (accounts.find? (fun a => a.1 = phone)).map (fun a => a.2)

/-- The raw-SQL existence check
`SELECT id FROM phone_verifications WHERE phone_number = :p AND is_active = 1`. -/
def hasActiveVerification (tbl : List PhoneVerification) (phone : String) :
    Bool :=
  tbl.any (fun r => r.phone_number = phone && r.is_active)

/-- `DatabaseManager.verify_phone_number`: returns `False` when the phone is
not in `accounts`; returns `True` without touching the table when an active
row for that phone already exists; otherwise runs
`DELETE FROM phone_verifications` followed by the insert of one fresh active
row, inside the same session transaction. -/
def verify_phone_number (accounts : List (String × String)) (clock : Nat)
    (tbl : List PhoneVerification) (phone : String) (sid : Option String) :
    Bool × List PhoneVerification :=
  match lookupAccount accounts phone with
  | none => (false, tbl)
  | some acct =>
    if hasActiveVerification tbl phone then (true, tbl)
    else (true, [⟨phone, acct, sid, clock, "ui_verification", true⟩])

/-- The row selected by `ORDER BY verified_at DESC LIMIT 1`: a row of
maximal `verified_at` among the given rows. -/
def mostRecentVerification : List PhoneVerification → Option PhoneVerification
  | [] => none
  | r :: rs =>
    match mostRecentVerification rs with
    | none => some r
    | some best => if best.verified_at > r.verified_at then some best else some r

/-- `DatabaseManager.get_active_phone_verification`: the most recent row
with `is_active = 1`, or `none`. -/
def get_active_phone_verification (tbl : List PhoneVerification) :
    Option PhoneVerification :=
  mostRecentVerification (tbl.filter (fun r => r.is_active))

/-- Verification-table states reachable through the repository API: the
table starts empty (`create_phone_verifications_table` creates it fresh) and
is only mutated by `verify_phone_number` calls, under arbitrary account
tables, clocks, phones and session ids. -/
inductive VerTableReachable : List PhoneVerification → Prop where
  | empty : VerTableReachable []
  | verifyStep (accounts : List (String × String)) (clock : Nat)
      (tbl : List PhoneVerification) (phone : String) (sid : Option String) :
      VerTableReachable tbl →
      VerTableReachable (verify_phone_number accounts clock tbl phone sid).2

/-- Every reachable verification table has at most one row and every row in
it is active. -/
theorem verTable_invariant {tbl : List PhoneVerification}
    (h : VerTableReachable tbl) :
    tbl.length ≤ 1 ∧ ∀ r ∈ tbl, r.is_active = true := by
  induction h with
  | empty => exact ⟨Nat.zero_le 1, by intro r hr; cases hr⟩
  | verifyStep accounts clock tbl phone sid _ ih =>
    unfold verify_phone_number
    cases lookupAccount accounts phone with
    | none => exact ih
    | some acct =>
      by_cases hact : hasActiveVerification tbl phone
      · simpa [hact] using ih
      · simp [hact]

/-! ## Orchestrator graph nodes (app/agent/agent.py).

The graph entry point is the `chatbot` node; `verify_customer` is the
verification node; tool execution returns to `chatbot`. -/

/-- The slice of `UtilityAgentState` read by the `chatbot` entry node:
`state.get` returns `None` for absent keys. -/
structure ChatbotState where
  verified_customer : Option Bool
  phone_number : Option String
deriving DecidableEq, Repr

/-- Where the `chatbot` node sends control next. -/
inductive NextNode where
  | verifyCustomerNode
  | converseLLM
deriving DecidableEq, Repr

/-- The `chatbot` entry node of `create_utility_agent`. Faithful to the
source: the local variable `verified_customer` is read once from the state;
when it is falsy and a phone number is present the state dict entry is set
to `True`, but the subsequent routing test reads the unchanged local
variable, not the state entry. Returns the chosen next node together with
the (possibly mutated) state dict. -/
def chatbot (state : ChatbotState) : NextNode × ChatbotState :=
  let verified_customer := pyTruthyBool state.verified_customer
  let state1 :=
    if ¬verified_customer ∧ pyTruthyStr state.phone_number then
      { state with verified_customer := some true }
    else state
  if ¬verified_customer then (NextNode.verifyCustomerNode, state1)
  else (NextNode.converseLLM, state1)

/-- The usage snapshot returned by a successful `my_usage` SOAP call
(always carries every key the caller reads). -/
structure UsageData where
  name : String
  balance : Int
  days_left : Int
  used : Int
  read_date : String
  charge_amount : Int
deriving DecidableEq, Repr

/-- A customer row returned by `get_customer_by_phone`. -/
structure LocalCustomer where
  name : String
  account_id : String
  address : String
deriving DecidableEq, Repr

/-- The system message constructed by `verify_customer`; prose is abstracted
to which template was instantiated. -/
inductive VCMessage where
  | greetWithName (name : String)
  | verificationGating
deriving DecidableEq, Repr

/-- The state update carried by the `Command` that `verify_customer`
returns; `none` fields are keys the update does not set. -/
structure VCUpdate where
  verified_customer : Bool
  message : VCMessage
  local_data : Option Bool
  account_id : Option String
  customer_name : Option String
  registered_address : Option String
  balance : Option Int
  days_left : Option Int
  used : Option Int
  read_date : Option String
  charge_amount : Option Int
deriving DecidableEq, Repr

/-- The `Command` value returned by `verify_customer`. -/
structure VCResult where
  goto : String
  update : VCUpdate
deriving DecidableEq, Repr

/-- The fall-through half of `UtilityAgent.verify_customer`, reached when
the legacy account id is falsy: the local directory lookup, then the
unauthenticated default. -/
def verifyLocalPath (phone_number : Option String)
    (getCustomer : Option String → Option LocalCustomer) :
    Except PyExc VCResult :=
  match getCustomer phone_number with
    | some customer =>
      .ok ⟨"chatbot",
        { verified_customer := true
          message := VCMessage.greetWithName customer.name
          local_data := some true
          account_id := some customer.account_id
          customer_name := some customer.name
          registered_address := some customer.address
          balance := none
          days_left := none
          used := none
          read_date := none
          charge_amount := none }⟩
    | none =>
      .ok ⟨"chatbot",
        { verified_customer := false
          message := VCMessage.verificationGating
          local_data := none
          account_id := none
          customer_name := none
          registered_address := none
          balance := none
          days_left := none
          used := none
          read_date := none
          charge_amount := none }⟩

/-- `UtilityAgent.verify_customer`. Oracles: `myAlerts` is the SOAP
`my_alerts` lookup (phone to account id, `None` on failure — it catches its
own exceptions), `myUsage` is the SOAP `my_usage` snapshot (`None` on
failure), `getCustomer` is `get_db_manager().get_customer_by_phone`. The
source tests `if account_id:` (Python truthiness: `None` and `""` are
falsy) and, on the legacy path, reads `data["name"]` without checking
`data`, which raises `TypeError` when `my_usage` returned `None`. -/
def verify_customer (phone_number : Option String)
    (myAlerts : Option String → Option String)
    (myUsage : String → Option UsageData)
    (getCustomer : Option String → Option LocalCustomer) :
    Except PyExc VCResult :=
  match myAlerts phone_number with
  | none => verifyLocalPath phone_number getCustomer
  | some aid =>
    if aid = "" then verifyLocalPath phone_number getCustomer
    else
      match myUsage aid with
      | none => .error PyExc.typeError
      | some data =>
        .ok ⟨"chatbot",
          { verified_customer := true
            message := VCMessage.greetWithName data.name
            local_data := some false
            account_id := some aid
            customer_name := some data.name
            registered_address := none
            balance := some data.balance
            days_left := some data.days_left
            used := some data.used
            read_date := some data.read_date
            charge_amount := some data.charge_amount }⟩

/-! ## Tool layer (app/agent/tools.py).

Money amounts are modelled in cents (`Int`); `formatCents` renders the
two-decimal formatting of `f"{x:.2f}"`. -/

/-- Two-decimal rendering of an amount in cents, as produced by the Python
format specifier `:.2f`. -/
def formatCents (c : Int) : String :=
  let n := c.natAbs
  let sign := if c < 0 then "-" else ""
  sign ++ toString (n / 100) ++ "." ++
    (if n % 100 < 10 then "0" else "") ++ toString (n % 100)

/-- The slice of the injected `UtilityAgentState` dict read by the tools;
`state.get` of an absent key is `None`. -/
structure AgentToolState where
  local_data : Option Bool
  account_id : Option String
  customer_name : Option String
  registered_address : Option String
  balance : Option Int
deriving DecidableEq, Repr

/-- The billing row returned by `get_billing_by_customer_id` (only the field
this embedding reads). -/
structure BillingInfo where
  current_balance : Int
deriving DecidableEq, Repr

/-- The `get_bill_balance` tool. `billing_info` is the row the database
returns on the local-data path. Faithful to the source: on the truthy
`local_data` branch `billing_info.current_balance` is read without a guard
(`AttributeError` when the row is `None`); on the falsy branch
`f"{balance:.2f}"` is applied to `state.get("balance")` without a guard
(`TypeError` when the key is absent); the final `else` arm of the source is
unreachable because an object is either truthy or falsy. -/
def get_bill_balance (state : AgentToolState)
    (billing_info : Option BillingInfo) : Except PyExc String :=
  if pyTruthyBool state.local_data then
    match billing_info with
    | some bi =>
      .ok ("Raw balance: $" ++ formatCents bi.current_balance ++
        "\nCustomer: " ++ pyShowOptStr state.customer_name)
    | none => .error PyExc.attributeError
  else
    match state.balance with
    | some b => .ok ("Raw balance: $" ++ formatCents b)
    | none => .error PyExc.typeError

/-- The `enroll_paperless_billing` tool (a stub that always fails softly). -/
def enroll_paperless_billing : Except PyExc String :=
  .ok "Could not enroll in paperless billing. Please try again later."

/-- A Python `datetime` value. -/
structure PyDateTime where
  year : Nat
  month : Nat
  day : Nat
  hour : Nat
  minute : Nat
  second : Nat
deriving DecidableEq, Repr

/-- Two-digit zero padding. -/
def pad2 (n : Nat) : String :=
  if n < 10 then "0" ++ toString n else toString n

/-- `strftime("%Y-%m-%dT%H:%M:%S")`. -/
def strftimeIsoT (t : PyDateTime) : String :=
  toString t.year ++ "-" ++ pad2 t.month ++ "-" ++ pad2 t.day ++ "T" ++
    pad2 t.hour ++ ":" ++ pad2 t.minute ++ ":" ++ pad2 t.second

/-- `str(datetime)`: date and time separated by a space. -/
def pyStrDateTime (t : PyDateTime) : String :=
  toString t.year ++ "-" ++ pad2 t.month ++ "-" ++ pad2 t.day ++ " " ++
    pad2 t.hour ++ ":" ++ pad2 t.minute ++ ":" ++ pad2 t.second

/-- `get_time_extraction_prompt` from app/agent/prompts.py: the prompt sent
to the model to resolve the outage start time, parameterised by the message
and by the current-time string spliced into its last sentence. -/
def get_time_extraction_prompt (user_input : String) (current_time : String) :
    String :=
  "Extract the outage start time from the following message.\n" ++
  "    The time can be in various formats:\n" ++
  "    - Exact time (e.g., \"2:30 PM\", \"14:30\")\n" ++
  "    - Relative time (e.g., \"2 hours ago\", \"yesterday\", \"3 days ago\")\n" ++
  "    - Date and time (e.g., \"June 4, 2025 at 2:30 PM\")\n\n" ++
  "    Message: \"" ++ user_input ++ "\"\n\n" ++
  "    Respond with ONLY the extracted time in the format (YYYY-MM-DDTHH:MM:SS)  or \"absent\" if not found.\n" ++
  "    For relative times, calculate the actual time based on the current time. The current time is " ++
  current_time ++ ".\n    "

/-- Address resolution at the top of `report_outage` and
`check_outage_status`: an explicit address is normalised through a model
call (`extractAddress` folds `llm.invoke(extract_address_prompt(a))` with
its `.content.strip()`); `address_type == "registered"` with truthy
`local_data` reads the registered address from state; the remaining arms
return early with a clarification question. -/
def resolveOutageAddress (address : Option String)
    (address_type : Option String) (state : AgentToolState)
    (extractAddress : String → String) : Except String (Option String) :=
  match address with
  | some a => .ok (some (extractAddress a))
  | none =>
    if address_type = some ("registered") ∧ pyTruthyBool state.local_data then
      .ok state.registered_address
    else if (address_type = some ("registered") ∧
        ¬pyTruthyBool state.local_data) ∨ address_type = some ("new") then
      .error "Please provide the address where the outage is occurring."
    else
      .error "Do you want to use your registered address or a different address?"

/-- Observable outcome of one `report_outage` call: the returned string (or
the exception it raises) together with the time-extraction prompt it sent to
the model, if it reached that step. -/
structure ReportOutageTrace where
  reply : Except PyExc String
  time_prompt_used : Option String
deriving Repr

/-- The `report_outage` tool. Oracles: `extractAddress` is the address
normalisation model call, `llmReply` is `llm.invoke(p).content.strip()` for
the time prompt, `validate` is `validate_customer_address` (the source
passes it whatever `address_string` holds, including `None`), `parseIso` is
`datetime.fromisoformat` (`none` meaning it raises `ValueError`), and
`createOutage` is the reference number `db_manager.create_outage` returns.
`realNow` is the actual wall clock at the moment of the call; the source
never consults it — `current_time` is the constant
`datetime(2025, 7, 3, 8, 0, 0)`. -/
def report_outage (start_time : String) (address : Option String)
    (address_type : Option String) (state : AgentToolState)
    (extractAddress : String → String) (llmReply : String → String)
    (validate : Option String → Bool × (Int × Int))
    (parseIso : String → Option PyDateTime) (createOutage : String)
    (realNow : PyDateTime) : ReportOutageTrace :=
  match resolveOutageAddress address address_type state extractAddress with
  | .error msg => ⟨.ok msg, none⟩
  | .ok address_string =>
    match validate address_string with
    | (false, _) => ⟨.ok "Please provide a valid address.", none⟩
    | (true, _) =>
      let current_time := strftimeIsoT ⟨2025, 7, 3, 8, 0, 0⟩
      let time_prompt := get_time_extraction_prompt start_time current_time
      let extracted_time := llmReply time_prompt
      if extracted_time = "absent" then
        ⟨.ok "Could not determine the outage start time. Please provide a clear time reference.",
          some time_prompt⟩
      else
        match parseIso extracted_time with
        | none => ⟨.error PyExc.valueError, some time_prompt⟩
        | some start_time_dt =>
          ⟨.ok ("Reported at " ++ pyShowOptStr address_string ++
            ". Start time: " ++ pyStrDateTime start_time_dt ++
            "\nReference number: " ++ createOutage), some time_prompt⟩

/-! ## Turn entry point `UtilityAgent.process_message` and the TTL reaper
`UtilityAgent.clear_old_checkpoints` (app/agent/agent.py). -/

/-- Errors `process_message` raises before delegating to the graph. The
source raises Python `ValueError("Phone number is required")`, the
realisation of the spec taxonomy entry ValidationError. -/
inductive ProcessError where
  | validationError (msg : String)
deriving DecidableEq, Repr

/-- Observable side effects of one `process_message` call: the user-message
content handed to `graph.stream` (`none` when the graph was never invoked)
and whether the TTL upsert ran. -/
structure TurnTrace where
  submitted_message : Option String
  ttl_written : Bool
deriving DecidableEq, Repr

/-- The literal placeholder substituted for a falsy `user_input`. -/
def placeholder_message : String :=
  "ignore this message. Dont reply to this message"

/-- `UtilityAgent.process_message`. The phone-number guard
(`if not phone_number: raise ValueError(...)`) runs before the graph is
invoked and before the TTL upsert; on the success path the submitted
`HumanMessage` content is `user_input` unless it is falsy, in which case it
is `placeholder_message`; `graphReply` is the oracle for the last assistant
message the compiled graph streams back; the TTL row for the session is
upserted after the reply is obtained. -/
def process_message (user_input : String) (phone_number : Option String)
    (session_id : Option String) (graphReply : String → String) :
    Except ProcessError String × TurnTrace :=
  if ¬pyTruthyStr phone_number then
    (.error (ProcessError.validationError "Phone number is required"),
      ⟨none, false⟩)
  else
    let content := if user_input = "" then placeholder_message else user_input
    (.ok (graphReply content), ⟨some content, true⟩)

/-- One row of the `ttl` table; `last_message_time` is minutes on an
absolute scale, `none` for a SQL NULL (skipped by the sweep) and also
standing for an unparsable timestamp (its per-thread exception is caught and
the thread skipped). -/
structure TTLRecord where
  thread_id : String
  last_message_time : Option Int
deriving DecidableEq, Repr

/-- The fixed inactivity threshold: `timedelta(minutes=45)`. -/
def stale_threshold_minutes : Int := 45

/-- Whether one TTL row is past the cutoff: `last_time < stale_cutoff` with
`stale_cutoff = now - 45 minutes`; NULL rows are skipped. -/
def staleAt (now : Int) (r : TTLRecord) : Bool :=
  match r.last_message_time with
  | none => false
  | some t => decide (t < now - stale_threshold_minutes)

/-- `UtilityAgent.clear_old_checkpoints`: reads all TTL rows and invokes
`clear_memory` on every thread whose `last_message_time` is strictly older
than the 45-minute cutoff; returns the thread ids cleared, in table order. -/
def clear_old_checkpoints (now : Int) (records : List TTLRecord) :
    List String :=
  (records.filter (staleAt now)).map (fun r => r.thread_id)

/-! ## Claim theorems -/

/-- C1: the claim says that a loaded state with `verified_customer` false
but a non-empty `phone_number` is routed by the entry node directly to the
conversation node without executing the verification node. The code does
the opposite: the routing test reads the stale local variable, so the entry
node hands control to the verification node. This theorem evaluates the
entry node at such a state and records that divergence (the state dict
entry is mutated to `True`, yet the returned command is the verification
node, not the model call). -/
theorem chatbot_phone_only_routes_to_verification :
    chatbot ⟨some false, some ("5551234567")⟩ =
      (NextNode.verifyCustomerNode, ⟨some true, some ("5551234567")⟩) := by
  decide

/-- C8: for every call to the turn entry point whose `phone_number` is falsy
(`None` or the empty string), `process_message` fails with the validation
error before any model call or TTL write: the graph is never invoked and no
state change happens, whatever the other arguments are. -/
theorem process_message_requires_phone (user_input : String)
    (phone_number : Option String) (session_id : Option String)
    (graphReply : String → String)
    (habsent : pyTruthyStr phone_number = false) :
    process_message user_input phone_number session_id graphReply =
      (.error (ProcessError.validationError ("Phone number is required")),
        ⟨none, false⟩) := by
  simp [process_message, habsent]

/-- C8 witness: instantiation at `phone_number = none`. -/
theorem process_message_requires_phone_witness :
    pyTruthyStr none = false ∧
    process_message ("what is my balance") none (some ("thread-1"))
        (fun s => s) =
      (.error (ProcessError.validationError ("Phone number is required")),
        ⟨none, false⟩) :=
  ⟨by decide,
    process_message_requires_phone ("what is my balance") none
      (some ("thread-1")) (fun s => s) (by decide)⟩

/-- C9: whenever `process_message` reaches the graph (the phone number is
present) with an empty `user_input`, the user message submitted to the
dialogue graph is the literal placeholder string, not the empty input. -/
theorem process_message_empty_input_placeholder (phone_number : Option String)
    (session_id : Option String) (graphReply : String → String)
    (hphone : pyTruthyStr phone_number = true) :
    (process_message ("") phone_number session_id graphReply).2.submitted_message
      = some placeholder_message := by
  simp [process_message, hphone]

/-- C9 witness: instantiation at a concrete phone number and thread. -/
theorem process_message_empty_input_placeholder_witness :
    pyTruthyStr (some ("5551234567")) = true ∧
    (process_message ("") (some ("5551234567")) (some ("thread-1"))
        (fun s => s)).2.submitted_message = some placeholder_message :=
  ⟨by decide,
    process_message_empty_input_placeholder (some ("5551234567"))
      (some ("thread-1")) (fun s => s) (by decide)⟩

/-- C4 counterexample: the claim says every tool returns a user-facing
string and never raises, on every input and state. `get_bill_balance`
invoked with no `local_data` and no `balance` snapshot in state (the state
of a thread that was never verified through the legacy path) reaches
`f"{balance:.2f}"` with `balance = None` and raises `TypeError`. -/
theorem get_bill_balance_raises_on_missing_balance :
    get_bill_balance ⟨none, none, none, none, none⟩ none =
      .error PyExc.typeError := by
  rfl

/-- C4 amended: the tools are not exception-safe on missing state; the
explicitly handled failure paths do return user-facing strings, and a tool
call returns a string whenever the branch it takes finds the data it reads:
`get_bill_balance` returns a descriptive string whenever the truthy
`local_data` branch has a billing row and the falsy branch has a `balance`
snapshot in state. -/
theorem get_bill_balance_ok_given_branch_data (state : AgentToolState)
    (billing_info : Option BillingInfo)
    (hlocal : pyTruthyBool state.local_data = true → billing_info.isSome = true)
    (hbal : pyTruthyBool state.local_data = false → state.balance.isSome = true) :
    ∃ s, get_bill_balance state billing_info = .ok s := by
  unfold get_bill_balance
  by_cases h : pyTruthyBool state.local_data
  · cases hb : billing_info with
    | none => rw [hb] at hlocal; simp at hlocal; exact absurd h (by simp [hlocal])
    | some bi =>
      exact ⟨"Raw balance: $" ++ formatCents bi.current_balance ++
        "\nCustomer: " ++ pyShowOptStr state.customer_name, by simp [h]⟩
  · cases hb : state.balance with
    | none =>
      have := hbal (by simpa using h)
      rw [hb] at this; simp at this
    | some b =>
      exact ⟨"Raw balance: $" ++ formatCents b, by simp [h, hb]⟩

/-- C4 witness: instantiation of the amended theorem at a legacy-path state
carrying a balance snapshot of 12345 cents. -/
theorem get_bill_balance_ok_given_branch_data_witness :
    (pyTruthyBool (some false) = true →
      (none : Option BillingInfo).isSome = true) ∧
    (pyTruthyBool (some false) = false →
      (some (12345 : Int)).isSome = true) ∧
    ∃ s, get_bill_balance ⟨some false, none, none, none, some 12345⟩ none =
      .ok s :=
  ⟨by decide, by decide,
    get_bill_balance_ok_given_branch_data
      ⟨some false, none, none, none, some 12345⟩ none (by decide) (by decide)⟩

/-- C6 counterexample: the claim says `verify_customer` transitions to the
conversation node for every input state. When the legacy `my_alerts` lookup
resolves an account id but the `my_usage` snapshot call fails (returns
`None`), the source reads `data["name"]` on `None` and raises `TypeError`
instead of transitioning. -/
theorem verify_customer_half_legacy_raises :
    verify_customer (some ("5551234567")) (fun _ => some ("ACC1"))
      (fun _ => none) (fun _ => none) = .error PyExc.typeError := by
  rfl

/-- C6 amended: `verify_customer` transitions to the conversation node
whenever the legacy lookup is all-or-nothing — the `my_usage` snapshot
succeeds for any truthy account id that `my_alerts` resolves. Under that
hypothesis every run returns a command whose goto is the conversation node,
whether the legacy path succeeds, the local directory lookup succeeds, or
both fail (proceeding unauthenticated). -/
theorem verify_customer_reaches_chatbot (phone_number : Option String)
    (myAlerts : Option String → Option String)
    (myUsage : String → Option UsageData)
    (getCustomer : Option String → Option LocalCustomer)
    (husage : ∀ aid, myAlerts phone_number = some aid → aid ≠ "" →
      (myUsage aid).isSome = true) :
    ∃ res, verify_customer phone_number myAlerts myUsage getCustomer =
      .ok res ∧ res.goto = "chatbot" := by
  have hlocal : ∃ res, verifyLocalPath phone_number getCustomer = .ok res ∧
      res.goto = "chatbot" := by
    unfold verifyLocalPath
    cases getCustomer phone_number with
    | none => exact ⟨_, rfl, rfl⟩
    | some customer => exact ⟨_, rfl, rfl⟩
  unfold verify_customer
  cases halerts : myAlerts phone_number with
  | none => exact hlocal
  | some aid =>
    by_cases haid : aid = ""
    · simpa [haid] using hlocal
    · have := husage aid halerts haid
      cases hu : myUsage aid with
      | none => rw [hu] at this; simp at this
      | some data =>
        exact ⟨⟨"chatbot",
          { verified_customer := true
            message := VCMessage.greetWithName data.name
            local_data := some false
            account_id := some aid
            customer_name := some data.name
            registered_address := none
            balance := some data.balance
            days_left := some data.days_left
            used := some data.used
            read_date := some data.read_date
            charge_amount := some data.charge_amount }⟩,
          by simp [haid, hu], rfl⟩

/-- C6 witness: instantiation of the amended theorem at a run where both
lookups fail and the node proceeds unauthenticated to the conversation
node. -/
theorem verify_customer_reaches_chatbot_witness :
    (∀ aid, (fun _ => (none : Option String)) (some ("5551234567")) =
        some aid → aid ≠ "" →
      ((fun _ => (none : Option UsageData)) aid).isSome = true) ∧
    ∃ res, verify_customer (some ("5551234567"))
        (fun _ => (none : Option String)) (fun _ => (none : Option UsageData))
        (fun _ => (none : Option LocalCustomer)) =
      .ok res ∧ res.goto = "chatbot" :=
  ⟨(fun aid h => nomatch h),
    verify_customer_reaches_chatbot (some ("5551234567"))
      (fun _ => none) (fun _ => none) (fun _ => none)
      (fun aid h => nomatch h)⟩

/-- A list of length at most one containing an element is that singleton. -/
theorem length_le_one_mem_singleton {α : Type} {l : List α} {x : α}
    (hlen : l.length ≤ 1) (hx : x ∈ l) : l = [x] := by
  cases l with
  | nil => cases hx
  | cons a as =>
    cases as with
    | nil => cases hx with
      | head => rfl
      | tail _ h => cases h
    | cons b bs => simp at hlen

/-- C3: on every verification-table state reachable through the repository
API, a successful `verify_phone_number` leaves exactly one active record —
the one for the phone just verified — and `get_active_phone_verification`
returns it, no matter how many distinct numbers were verified before
(verifying a new number deletes all prior records in the same transaction
as the insert). -/
theorem verify_leaves_single_active_record
    (accounts : List (String × String)) (clock : Nat)
    (tbl : List PhoneVerification) (phone : String) (sid : Option String)
    (hreach : VerTableReachable tbl)
    (hsucc : (verify_phone_number accounts clock tbl phone sid).1 = true) :
    ∃ r, ((verify_phone_number accounts clock tbl phone sid).2.filter
        (fun x => x.is_active)) = [r] ∧
      r.phone_number = phone ∧
      get_active_phone_verification
        (verify_phone_number accounts clock tbl phone sid).2 = some r := by
  obtain ⟨hlen, hact⟩ := verTable_invariant hreach
  unfold verify_phone_number at *
  cases hl : lookupAccount accounts phone with
  | none => rw [hl] at hsucc; simp at hsucc
  | some acct =>
    by_cases hactv : hasActiveVerification tbl phone
    · obtain ⟨r, hr_mem, hr⟩ := by
        simpa [hasActiveVerification, List.any_eq_true] using hactv
      have htbl : tbl = [r] := length_le_one_mem_singleton hlen hr_mem
      subst htbl
      have hactv2 : hasActiveVerification [r] phone = true := by
        simp [hasActiveVerification, hr.1, hr.2]
      refine ⟨r, ?_, hr.1, ?_⟩
      · simp [hactv2, List.filter, hr.2]
      · simp [hactv2, get_active_phone_verification, List.filter,
          mostRecentVerification, hr.2]
    · refine ⟨⟨phone, acct, sid, clock, "ui_verification", true⟩, ?_, rfl, ?_⟩
      · simp [hl, hactv]
      · simp [hl, hactv, get_active_phone_verification, mostRecentVerification]

/-- C3 witness: instantiation at the empty table with one registered account
and a successful verification of its phone number. -/
theorem verify_leaves_single_active_record_witness :
    VerTableReachable [] ∧
    (verify_phone_number [(("5551234567"), ("ACC1"))] 7 [] ("5551234567")
      none).1 = true ∧
    ∃ r, ((verify_phone_number [(("5551234567"), ("ACC1"))] 7 []
        ("5551234567") none).2.filter (fun x => x.is_active)) = [r] ∧
      r.phone_number = ("5551234567") ∧
      get_active_phone_verification
        (verify_phone_number [(("5551234567"), ("ACC1"))] 7 []
          ("5551234567") none).2 = some r :=
  ⟨VerTableReachable.empty, by decide,
    verify_leaves_single_active_record [(("5551234567"), ("ACC1"))] 7 []
      ("5551234567") none VerTableReachable.empty (by decide)⟩

/-- C5: verification is idempotent — with the phone number registered in the
accounts table, calling `verify_phone_number` twice in a row with the same
number succeeds both times, the second call changes nothing in the stored
verification table, and `get_active_phone_verification` returns the same
record after each call. -/
theorem verify_phone_number_idempotent (accounts : List (String × String))
    (clock1 clock2 : Nat) (tbl : List PhoneVerification) (phone : String)
    (sid1 sid2 : Option String) (acct : String)
    (hacct : lookupAccount accounts phone = some acct) :
    (verify_phone_number accounts clock1 tbl phone sid1).1 = true ∧
    (verify_phone_number accounts clock2
      (verify_phone_number accounts clock1 tbl phone sid1).2 phone sid2).1 =
      true ∧
    (verify_phone_number accounts clock2
      (verify_phone_number accounts clock1 tbl phone sid1).2 phone sid2).2 =
      (verify_phone_number accounts clock1 tbl phone sid1).2 ∧
    get_active_phone_verification
      (verify_phone_number accounts clock2
        (verify_phone_number accounts clock1 tbl phone sid1).2 phone sid2).2 =
      get_active_phone_verification
        (verify_phone_number accounts clock1 tbl phone sid1).2 := by
  have hfresh : hasActiveVerification
      [⟨phone, acct, sid1, clock1, "ui_verification", true⟩] phone = true := by
    simp [hasActiveVerification]
  by_cases h : hasActiveVerification tbl phone
  · simp [verify_phone_number, hacct, h]
  · simp [verify_phone_number, hacct, h, hfresh]

/-- C5 witness: instantiation at the empty table with one registered
account; both calls succeed and the table is unchanged by the second. -/
theorem verify_phone_number_idempotent_witness :
    lookupAccount [(("5551234567"), ("ACC1"))] ("5551234567") =
      some ("ACC1") ∧
    ((verify_phone_number [(("5551234567"), ("ACC1"))] 1 [] ("5551234567")
        none).1 = true ∧
      (verify_phone_number [(("5551234567"), ("ACC1"))] 2
        (verify_phone_number [(("5551234567"), ("ACC1"))] 1 [] ("5551234567")
          none).2 ("5551234567") none).1 = true ∧
      (verify_phone_number [(("5551234567"), ("ACC1"))] 2
        (verify_phone_number [(("5551234567"), ("ACC1"))] 1 [] ("5551234567")
          none).2 ("5551234567") none).2 =
        (verify_phone_number [(("5551234567"), ("ACC1"))] 1 [] ("5551234567")
          none).2 ∧
      get_active_phone_verification
        (verify_phone_number [(("5551234567"), ("ACC1"))] 2
          (verify_phone_number [(("5551234567"), ("ACC1"))] 1 []
            ("5551234567") none).2 ("5551234567") none).2 =
        get_active_phone_verification
          (verify_phone_number [(("5551234567"), ("ACC1"))] 1 []
            ("5551234567") none).2) :=
  ⟨by decide,
    verify_phone_number_idempotent [(("5551234567"), ("ACC1"))] 1 2 []
      ("5551234567") none none ("ACC1") (by decide)⟩

/-- A TTL row is stale exactly when its timestamp exists and is strictly
older than the cutoff. -/
theorem staleAt_iff (now : Int) (r : TTLRecord) :
    staleAt now r = true ↔
      ∃ t, r.last_message_time = some t ∧ t < now - stale_threshold_minutes := by
  cases h : r.last_message_time with
  | none => simp [staleAt, h]
  | some t => simp [staleAt, h]

/-- C7: one reaper sweep clears exactly the threads whose TTL record is
strictly older than the 45-minute threshold; in particular, for records at
`now - 46` minutes and `now - 10` minutes the sweep invokes `clear_memory`
on the first thread only, whatever the current time is. -/
theorem reaper_clears_exactly_stale_threads (now : Int) (a b : String) :
    clear_old_checkpoints now
      [⟨a, some (now - 46)⟩, ⟨b, some (now - 10)⟩] = [a] ∧
    ∀ (records : List TTLRecord) (tid : String),
      tid ∈ clear_old_checkpoints now records ↔
        ∃ r ∈ records, r.thread_id = tid ∧
          ∃ t, r.last_message_time = some t ∧ t < now - 45 := by
  constructor
  · have ha : staleAt now ⟨a, some (now - 46)⟩ = true := by
      simp [staleAt, stale_threshold_minutes]
    have hb : staleAt now ⟨b, some (now - 10)⟩ = false := by
      simp [staleAt, stale_threshold_minutes]
    simp [clear_old_checkpoints, List.filter, ha, hb]
  · intro records tid
    simp only [clear_old_checkpoints, List.mem_map, List.mem_filter,
      staleAt_iff, stale_threshold_minutes]
    constructor
    · rintro ⟨r, ⟨hmem, t, ht, hlt⟩, hid⟩
      exact ⟨r, hmem, hid, t, ht, hlt⟩
    · rintro ⟨r, hmem, hid, t, ht, hlt⟩
      exact ⟨r, ⟨hmem, t, ht, hlt⟩, hid⟩

/-- The constant timestamp `datetime(2025, 7, 3, 8, 0, 0)` that
`report_outage` formats into the time-extraction prompt. -/
theorem fixed_time_constant :
    strftimeIsoT ⟨2025, 7, 3, 8, 0, 0⟩ = "2025-07-03T08:00:00" := by
  rfl

/-- C10: whatever the actual wall clock `realNow` is at the moment of the
call, whenever `report_outage` reaches the time-extraction step the prompt
it sends to the model resolves relative start-time references against the
fixed constant timestamp 2025-07-03T08:00:00 — never against `realNow`. -/
theorem report_outage_uses_fixed_current_time (start_time : String)
    (address : Option String) (address_type : Option String)
    (state : AgentToolState) (extractAddress llmReply : String → String)
    (validate : Option String → Bool × (Int × Int))
    (parseIso : String → Option PyDateTime) (createOutage : String)
    (realNow : PyDateTime) (p : String)
    (hp : (report_outage start_time address address_type state extractAddress
        llmReply validate parseIso createOutage realNow).time_prompt_used =
      some p) :
    p = get_time_extraction_prompt start_time ("2025-07-03T08:00:00") := by
  have hcases : (report_outage start_time address address_type state
        extractAddress llmReply validate parseIso createOutage
        realNow).time_prompt_used = none ∨
      (report_outage start_time address address_type state extractAddress
        llmReply validate parseIso createOutage realNow).time_prompt_used =
        some (get_time_extraction_prompt start_time
          (strftimeIsoT ⟨2025, 7, 3, 8, 0, 0⟩)) := by
    unfold report_outage
    cases resolveOutageAddress address address_type state extractAddress with
    | error msg => left; rfl
    | ok address_string =>
      cases hv : validate address_string with
      | mk verified coords =>
        cases verified with
        | false => left; simp [hv]
        | true =>
          by_cases habs : llmReply (get_time_extraction_prompt start_time
              (strftimeIsoT ⟨2025, 7, 3, 8, 0, 0⟩)) = "absent"
          · right; simp [hv, habs]
          · cases hpi : parseIso (llmReply (get_time_extraction_prompt
                start_time (strftimeIsoT ⟨2025, 7, 3, 8, 0, 0⟩))) with
            | none => right; simp [hv, habs, hpi]
            | some dt => right; simp [hv, habs, hpi]
  rcases hcases with h | h
  · rw [hp] at h; exact Option.noConfusion h
  · rw [hp] at h
    have hpe := Option.some.inj h
    rw [hpe, fixed_time_constant]

/-- C10 witness: a run that reaches the time-extraction step (explicit
address, validator accepts, model answers absent) under a wall clock far
from the constant; the prompt still carries 2025-07-03T08:00:00. -/
theorem report_outage_uses_fixed_current_time_witness :
    (report_outage ("3 hours ago") (some ("123 Main St")) none
        ⟨none, none, none, none, none⟩ (fun a => a) (fun _ => ("absent"))
        (fun _ => (true, (0, 0))) (fun _ => none) ("OUT-1")
        ⟨2026, 1, 1, 0, 0, 0⟩).time_prompt_used =
      some (get_time_extraction_prompt ("3 hours ago")
        ("2025-07-03T08:00:00")) ∧
    get_time_extraction_prompt ("3 hours ago") ("2025-07-03T08:00:00") =
      get_time_extraction_prompt ("3 hours ago") ("2025-07-03T08:00:00") :=
  ⟨by rfl,
    report_outage_uses_fixed_current_time ("3 hours ago")
      (some ("123 Main St")) none ⟨none, none, none, none, none⟩
      (fun a => a) (fun _ => ("absent")) (fun _ => (true, (0, 0)))
      (fun _ => none) ("OUT-1") ⟨2026, 1, 1, 0, 0, 0⟩
      (get_time_extraction_prompt ("3 hours ago") ("2025-07-03T08:00:00"))
      (by rfl)⟩
